import Mathlib

/-!
Verification of the core scheduling / decision logic of `dusk_manager.py`
(wolfrage76/dusk-manager), shallowly embedded in Lean 4.

Modelling conventions:
* Python `float` values are modelled as `ℚ` (the decimal texts parsed by the
  program are exact decimals; binary rounding is irrelevant to the properties
  proved here).
* Python `int` is `ℤ`; counters that are only ever non-negative are `ℕ`.
* A command's captured stdout (`execute_command_async`) is `Option String`:
  `none` models a failed command (the function returns `None`), `some s` the
  stripped stdout text.
* Python exceptions that no handler catches are modelled by explicit
  `raised` outcomes of the per-cycle step functions; the state returned with
  such an outcome is the shared state as already mutated when the exception
  was thrown (the Python state object survives the death of the loop).
* Effects (notifications, log_action, wallet commands) are recorded in the
  returned structures (`stall_alerts`, `logs`, `cmds`, ...) instead of being
  performed.
-/

attribute [local semireducible] Rat.mul Rat.add Rat.inv Rat.sub

namespace DuskManager

/-! ## Python string primitives used by the source -/

/-- Python whitespace characters (the ASCII ones produced by the wallet CLI);
    used to model `str.strip` and `\s*` in the regexes of the source. -/
def isPySpace (c : Char) : Bool :=
  c == ' ' || c == '\t' || c == '\n' || c == '\r' || c == '\x0b' || c == '\x0c'

/-- Drop trailing characters satisfying `p`. -/
def dropTrailing (p : Char → Bool) (cs : List Char) : List Char :=
  (cs.reverse.dropWhile p).reverse

/-- Model of Python `str.strip()` on a list of characters. -/
def strip_chars (cs : List Char) : List Char :=
  dropTrailing isPySpace (cs.dropWhile isPySpace)

/-- Numeric value of a list of decimal digits (most significant first). -/
def digitsVal (cs : List Char) : ℕ :=
  cs.foldl (fun a c => a * 10 + (c.toNat - Char.toNat '0')) 0

/-- Model of Python `int(s)` applied to a string: optional surrounding
    whitespace, optional sign, then a non-empty run of decimal digits;
    anything else raises `ValueError`, modelled as `none`. -/
def pyIntOfString (s : String) : Option ℤ :=
  let cs := strip_chars s.toList
  let signed : ℤ × List Char :=
    match cs with
    | '-' :: rest => (-1, rest)
    | '+' :: rest => (1, rest)
    | _ => (1, cs)
  if !signed.2.isEmpty && signed.2.all (·.isDigit) then
    some (signed.1 * (digitsVal signed.2 : ℤ))
  else
    none

/-- Unwrap an `execute_command_async` result already known truthy
    (Python needs no unwrapping; the default is never used). -/
def orEmpty (o : Option String) : String :=
  match o with
  | some s => s
  | none => ""

/-- Python truthiness of an `execute_command_async` result: `None` and the
    empty string are falsy (`if not output:`), any other string is truthy. -/
def pyTruthy (o : Option String) : Bool :=
  match o with
  | none => false
  | some s => !s.toList.isEmpty

/-- Python `x or default` for an optional float `x` (used as
    `e_stake or 0.0` in `frequent_update_loop`): `None` and `0.0` are falsy. -/
def pyOr (o : Option ℚ) (d : ℚ) : ℚ :=
  match o with
  | none => d
  | some x => if x = 0 then d else x

/-- Model of Python `str.splitlines()` (accumulator holds the current line in
    reverse).  The wallet output split by the source uses `\n` terminators;
    a `\r` left at the end of a line is removed by the subsequent `strip`. -/
def split_lines_aux : List Char → List Char → List (List Char)
  | [], acc => if acc.isEmpty then [] else [acc.reverse]
  | '\n' :: rest, acc => acc.reverse :: split_lines_aux rest []
  | c :: rest, acc => split_lines_aux rest (c :: acc)

/-- `str.splitlines()` on a string. -/
def split_lines (s : String) : List (List Char) :=
  split_lines_aux s.toList []

/-- Model of Python `key in line` (substring containment). -/
def containsKey (key : List Char) : List Char → Bool
  | [] => key.isEmpty
  | c :: rest => key.isPrefixOf (c :: rest) || containsKey key rest

/-! ## `parse_stake_info` (src/dusk_manager.py lines 238-273) -/

/-- Model of Python `float(s)` applied to a string captured by `([\d\.]+)`:
    the characters are digits and dots; the literal is valid iff it has at
    least one digit and at most one dot.  `float("1.2.3")` or `float(".")`
    raise `ValueError` (modelled as `none`), which the enclosing
    `try`/`except` of `parse_stake_info` turns into a total parse failure. -/
def pyFloatOfNumChars (cs : List Char) : Option ℚ :=
  let ip := cs.takeWhile (·.isDigit)
  let rest := cs.dropWhile (·.isDigit)
  match rest with
  | [] => if ip.isEmpty then none else some ((digitsVal ip : ℚ))
  | '.' :: fp =>
    if fp.all (·.isDigit) then
      if ip.isEmpty && fp.isEmpty then none
      else some ((digitsVal ip : ℚ) + (digitsVal fp : ℚ) / (10 : ℚ) ^ fp.length)
    else none
  | _ => none

/-- The tail of the regex `KEY\s*([\d\.]+)\s*DUSK` after an occurrence of
    `KEY`: skip whitespace, capture a maximal non-empty run of `[\d\.]`,
    skip whitespace, require the literal `DUSK`.  Maximal munch is exact
    here because `D` is neither a digit, a dot, nor whitespace, so the
    regex engine never needs to backtrack inside a successful match. -/
def dusk_literal : List Char := "DUSK".toList

def matchAfterKey (cs : List Char) : Option (List Char) :=
  let cs1 := cs.dropWhile isPySpace
  let num := cs1.takeWhile (fun c => c.isDigit || c == '.')
  let rest := cs1.dropWhile (fun c => c.isDigit || c == '.')
  let rest2 := rest.dropWhile isPySpace
  if num.isEmpty then none
  else if dusk_literal.isPrefixOf rest2 then some num
  else none

/-- Model of `re.search(KEY + r"\s*([\d\.]+)\s*DUSK", line)`: the pattern
    starts with the literal `KEY`, so the search tries each occurrence of
    `KEY` from the left and returns the first capture that completes. -/
def searchKey (key : List Char) : List Char → Option (List Char)
  | [] => none
  | c :: rest =>
    if key.isPrefixOf (c :: rest) then
      match matchAfterKey ((c :: rest).drop key.length) with
      | some num => some num
      | none => searchKey key rest
    else searchKey key rest

/-- `"Eligible stake:"` -/
def key_eligible : List Char := "Eligible stake:".toList
/-- `"Reclaimable slashed stake:"` -/
def key_reclaimable : List Char := "Reclaimable slashed stake:".toList
/-- `"Accumulated rewards is:"` -/
def key_rewards : List Char := "Accumulated rewards is:".toList

/-- One iteration of the `for line in lines:` loop of `parse_stake_info`:
    the `if/elif` chain tries the three keys in order; a line whose regex
    matches but whose captured number is rejected by `float` raises
    `ValueError` (the `Except.error` case), aborting the whole loop. -/
def parse_stake_info_line (st : Option ℚ × Option ℚ × Option ℚ) (line : List Char) :
    Except Unit (Option ℚ × Option ℚ × Option ℚ) :=
  if containsKey key_eligible line then
    match searchKey key_eligible line with
    | none => .ok st
    | some num =>
      match pyFloatOfNumChars num with
      | none => .error ()
      | some q => .ok (some q, st.2.1, st.2.2)
  else if containsKey key_reclaimable line then
    match searchKey key_reclaimable line with
    | none => .ok st
    | some num =>
      match pyFloatOfNumChars num with
      | none => .error ()
      | some q => .ok (st.1, some q, st.2.2)
  else if containsKey key_rewards line then
    match searchKey key_rewards line with
    | none => .ok st
    | some num =>
      match pyFloatOfNumChars num with
      | none => .error ()
      | some q => .ok (st.1, st.2.1, some q)
  else .ok st

/-- `parse_stake_info(output)` (lines 238-273): scan every stripped line for
    the three fields; if any field is missing at the end — or any `float`
    conversion raised — return `(None, None, None)`. -/
def parse_stake_info (output : String) : Option ℚ × Option ℚ × Option ℚ :=
  let lines := (split_lines output).map strip_chars
  match lines.foldlM parse_stake_info_line (none, none, none) with
  | .error _ => (none, none, none)
  | .ok (a, b, c) =>
    if a = none ∨ b = none ∨ c = none then (none, none, none) else (a, b, c)

/-! ## Pure decision helpers (lines 322-340) -/

/-- Configuration values read from `config.yaml` at startup (with the
    source's defaults: `min_rewards 1, min_slashed 1, buffer_blocks 60,
    min_stake_amount 1000, min_peers 10`, both automation toggles off). -/
structure Config where
  min_rewards : ℚ
  min_slashed : ℚ
  buffer_blocks : ℤ
  min_stake_amount : ℚ
  min_peers : ℤ
  auto_stake_rewards : Bool
  auto_reclaim_full_restakes : Bool
  use_sudo : String
deriving Repr, DecidableEq

/-- The source's defaults for a missing config file section. -/
def default_config : Config :=
  { min_rewards := 1
    min_slashed := 1
    buffer_blocks := 60
    min_stake_amount := 1000
    min_peers := 10
    auto_stake_rewards := false
    auto_reclaim_full_restakes := false
    use_sudo := "" }

/-- `calculate_rewards_per_epoch(rewards_amount, last_claim_block, current_block)`
    (lines 322-328): true division by 2160 then a positivity test. -/
def calculate_rewards_per_epoch (rewards_amount : ℚ) (last_claim_block current_block : ℤ) : ℚ :=
  let blocks_elapsed : ℚ := ((current_block - last_claim_block : ℤ) : ℚ)
  let epochs_elapsed := blocks_elapsed / 2160
  if epochs_elapsed > 0 then rewards_amount / epochs_elapsed else 0

/-- `calculate_downtime_loss(rewards_per_epoch, downtime_epochs=1)` (lines 330-332). -/
def calculate_downtime_loss (rewards_per_epoch : ℚ) (downtime_epochs : ℚ) : ℚ :=
  rewards_per_epoch * downtime_epochs

/-- `should_unstake_and_restake(reclaimable_slashed_stake, downtime_loss)`
    (lines 334-336); the globals `auto_reclaim_full_restakes` and
    `config.get('min_slashed', 1)` become `Config` fields. -/
def should_unstake_and_restake (cfg : Config) (reclaimable_slashed_stake downtime_loss : ℚ) : Bool :=
  cfg.auto_reclaim_full_restakes &&
    (decide (reclaimable_slashed_stake > cfg.min_slashed) &&
     decide (reclaimable_slashed_stake ≥ downtime_loss))

/-- `should_claim_and_stake(rewards, incremental_threshold)` (lines 338-340). -/
def should_claim_and_stake (cfg : Config) (rewards incremental_threshold : ℚ) : Bool :=
  cfg.auto_stake_rewards &&
    (decide (rewards > cfg.min_rewards) && decide (rewards ≥ incremental_threshold))

/-! ## Epoch scheduler arithmetic (lines 383-407) -/

/-- The number of seconds `sleep_until_next_epoch(block_height, buffer_blocks)`
    (lines 383-399) passes to `sleep_with_feedback`: `blocks_left * 10`,
    replaced by the minimal sleep 300 when that is `<= 0`. -/
def sleep_until_next_epoch_seconds (block_height buffer_blocks : ℤ) : ℤ :=
  let blocks_left := 2160 - block_height % 2160 - buffer_blocks
  let sleep_time := blocks_left * 10
  if sleep_time ≤ 0 then 300 else sleep_time

/-- `minutes_until_next_epoch(block_height, buffer_blocks)` (lines 401-407):
    seconds are clamped at 0 by `max(..., 0)` before floor division by 60. -/
def minutes_until_next_epoch (block_height buffer_blocks : ℤ) : ℤ :=
  let blocks_left := 2160 - block_height % 2160 - buffer_blocks
  let total_seconds := max (blocks_left * 10) 0
  total_seconds / 60

/-! ## The no-action log buffer (lines 772-774) -/

/-- The buffer update performed for each no-action log entry:
    `if len(log_entries) > 20: log_entries.pop(0)` then
    `log_entries.append(log_entry)`. -/
def append_log_entry (log_entries : List String) (log_entry : String) : List String :=
  (if log_entries.length > 20 then log_entries.tail else log_entries) ++ [log_entry]

/-! ## Shared state (lines 101-123) -/

/-- `shared_state["stake_info"]`. -/
structure StakeInfo where
  stake_amount : ℚ
  reclaimable_slashed_stake : ℚ
  rewards_amount : ℚ
deriving Repr, DecidableEq

/-- The process-wide `shared_state` record; the market-snapshot fields other
    than `price` and the countdown fields (written only by
    `sleep_with_feedback`) are presentation-only and elided.
    `peer_count` holds the raw output of the `ruskquery peers` command
    exactly as stored by `frequent_update_loop` (line 481); its Python
    initial value is the integer `0`, modelled by its textual form. -/
structure SharedState where
  block_height : ℤ
  last_no_action_block : Option ℤ
  last_claim_block : ℤ
  stake_info : StakeInfo
  balances_public : ℚ
  balances_shielded : ℚ
  last_action_taken : String
  first_run : Bool
  peer_count : Option String
  price : ℚ
deriving Repr, DecidableEq

/-- Textual zero, the display form of the initial `peer_count`. -/
def zero_text : String := "0"

/-- The startup value of `shared_state`. -/
def initial_shared_state : SharedState :=
  { block_height := 0
    last_no_action_block := none
    last_claim_block := 0
    stake_info := ⟨0, 0, 0⟩
    balances_public := 0
    balances_shielded := 0
    last_action_taken := "Starting Up"
    first_run := true
    peer_count := some zero_text
    price := 0 }

/-! ## `frequent_update_loop` (lines 414-506) -/

/-- State of `frequent_update_loop`: the shared record plus the loop-local
    variables of lines 421-424, plus counters recording how many stall /
    low-peer notifications have been emitted (the observable effect of
    `notifier.notify` at lines 449 and 502). -/
structure FreqState where
  shared : SharedState
  loopcnt : ℕ
  consecutive_no_change : ℕ
  last_known_block_height : Option ℤ
  consecutive_low_peers : ℕ
  stall_alerts : ℕ
  low_peer_alerts : ℕ
deriving Repr, DecidableEq

/-- The loop-local state at the top of `while True:` (lines 421-424). -/
def initial_freq_state : FreqState :=
  { shared := initial_shared_state
    loopcnt := 0
    consecutive_no_change := 0
    last_known_block_height := none
    consecutive_low_peers := 0
    stall_alerts := 0
    low_peer_alerts := 0 }

/-- The environment's responses to the external calls one cycle of
    `frequent_update_loop` can make:  stdout of `ruskquery block-height`,
    the result of `get_wallet_balances`, stdout of `rusk-wallet stake-info`,
    the CoinGecko price (`none` models a failed fetch), and stdout of
    `ruskquery peers`. -/
structure FreqInput where
  block_height_fetch : Option String
  balances_fetch : ℚ × ℚ
  stake_info_fetch : Option String
  dusk_fetch : Option ℚ
  peers_fetch : Option String
deriving Repr, DecidableEq

/-- How one cycle of `frequent_update_loop` terminates. -/
inductive FreqOutcome where
  /-- `if not block_height_str:` — sleep 10 s and `continue` (lines 430-432). -/
  | retryBlock : FreqOutcome
  /-- stall alert emitted — sleep 1 s and `continue` (lines 446-452). -/
  | stallAlerted : FreqOutcome
  /-- `if not peer_count:` — sleep 10 s and `continue` (lines 484-487). -/
  | retryPeers : FreqOutcome
  /-- cycle completed — sleep 10 s (line 506). -/
  | normal : FreqOutcome
  /-- an exception no handler catches: the loop (and, through
      `asyncio.gather`, the whole program) dies. -/
  | raised (msg : String) : FreqOutcome
deriving Repr, DecidableEq

/-- Exception message for `int(None)`. -/
def type_error_int_none : String := "TypeError: int() argument is None"
/-- Exception message for `int()` on a non-numeric string. -/
def value_error_int : String := "ValueError: invalid literal for int()"

/-- One cycle of the `while True:` body of `frequent_update_loop`
    (lines 426-506), as a function of the current state and the external
    responses.  Returns the state as mutated when the cycle ends (also for
    `raised`, since Python's `shared_state` survives the exception). -/
def frequent_update_cycle (cfg : Config) (st : FreqState) (inp : FreqInput) :
    FreqState × FreqOutcome :=
  -- 1) fetch block height (lines 428-432)
  if pyTruthy inp.block_height_fetch = false then (st, .retryBlock)
  else
    match pyIntOfString (orEmpty inp.block_height_fetch) with
    | none => (st, .raised value_error_int)
    | some current_block_height =>
      -- compare with last known block height (lines 437-443)
      let consecutive_no_change :=
        match st.last_known_block_height with
        | some last => if current_block_height = last then st.consecutive_no_change + 1 else 0
        | none => 0
      -- notify if unchanged for 10 loops, reset, sleep 1 s, continue (lines 446-452)
      if consecutive_no_change ≥ 10 then
        ({ st with consecutive_no_change := 0, stall_alerts := st.stall_alerts + 1 },
         .stallAlerted)
      else
        -- update last known height and shared state (lines 455-456)
        let st := { st with
          consecutive_no_change := consecutive_no_change
          last_known_block_height := some current_block_height
          shared := { st.shared with block_height := current_block_height } }
        -- balance / stake-info / market update every 33 loops (lines 459-478)
        let st :=
          if st.loopcnt ≥ 33 then
            let st := { st with shared := { st.shared with
              balances_public := inp.balances_fetch.1
              balances_shielded := inp.balances_fetch.2 } }
            let st :=
              if pyTruthy inp.stake_info_fetch then
                let parsed := parse_stake_info (orEmpty inp.stake_info_fetch)
                { st with shared := { st.shared with stake_info :=
                  { stake_amount := pyOr parsed.1 0
                    reclaimable_slashed_stake := pyOr parsed.2.1 0
                    rewards_amount := pyOr parsed.2.2 0 } } }
              else st
            let st :=
              match inp.dusk_fetch with
              | some usd => { st with shared := { st.shared with price := usd } }
              | none => st
            { st with loopcnt := 0 }
          else st
        -- store raw peers output, then `int(...)` (lines 481-482)
        let st := { st with shared := { st.shared with peer_count := inp.peers_fetch } }
        match inp.peers_fetch with
        | none => (st, .raised type_error_int_none)
        | some peers_str =>
          match pyIntOfString peers_str with
          | none => (st, .raised value_error_int)
          | some peer_count =>
            -- `if not peer_count:` (lines 484-487); only 0 is falsy here
            if peer_count = 0 then (st, .retryPeers)
            else
              -- low-peer counter (lines 490-496); `peer_count is not None` always holds
              let consecutive_low_peers :=
                if peer_count < cfg.min_peers ∨ peer_count ≤ 0 then
                  st.consecutive_low_peers + 1
                else 0
              -- notify if low for 240 loops, then reset (lines 499-503)
              if consecutive_low_peers ≥ 240 then
                ({ st with
                    consecutive_low_peers := 0
                    low_peer_alerts := st.low_peer_alerts + 1
                    loopcnt := st.loopcnt + 1 },
                 .normal)
              else
                ({ st with
                    consecutive_low_peers := consecutive_low_peers
                    loopcnt := st.loopcnt + 1 },
                 .normal)

/-- Run `frequent_update_loop` for one cycle per input in the list,
    threading the state (the harness used to state trace properties). -/
def run_frequent_cycles (cfg : Config) (inps : List FreqInput) (st : FreqState) : FreqState :=
  inps.foldl (fun s i => (frequent_update_cycle cfg s i).1) st

/-- A healthy peer count text. -/
def peers_50_text : String := "50"

/-- A healthy polling observation: the `ruskquery` commands answer with the
    given block height text and a peer count of 50, the expensive fetches
    are not exercised. -/
def benign_input (height_text : String) : FreqInput :=
  { block_height_fetch := some height_text
    balances_fetch := (0, 0)
    stake_info_fetch := none
    dusk_fetch := none
    peers_fetch := some peers_50_text }

/-! ## `stake_management_loop` (lines 541-787) -/

/-- Abstraction of the numeric rendering done by `format_float` /
    `str(float)`: the exact decimal text of a Python float is irrelevant to
    the verified properties, so the rational's canonical text is used. -/
def format_float (q : ℚ) : String := toString q

/-- The message `log_action(action, details)` hands to `notifier.notify`
    (line 229): `f"{action}: {details}"`. -/
def log_action_msg (action details : String) : String := action ++ ": " ++ details

/-- The `"Balance Info"` log with the `Stk:` label (lines 608-611, 665-668). -/
def balance_info_stk_log (block_height : ℤ) (rwd stk rcl : ℚ) : String :=
  log_action_msg ("Balance Info (#" ++ toString block_height ++ ")")
    ("Rwd: " ++ format_float rwd ++ ", Stk: " ++ format_float stk ++
     ", Rcl: " ++ format_float rcl)

/-- The `"Balance Info"` log with the `Stake:` label (lines 622-625). -/
def balance_info_stake_log (block_height : ℤ) (rwd stk rcl : ℚ) : String :=
  log_action_msg ("Balance Info (#" ++ toString block_height ++ ")")
    ("Rwd: " ++ format_float rwd ++ ", Stake: " ++ format_float stk ++
     ", Rcl: " ++ format_float rcl)

/-- Seven password-redaction hashes (branch A, lines 633, 641, 649). -/
def hash7 : String := "#######"

/-- Six password-redaction hashes (branch B, lines 673, 681). -/
def hash6 : String := "######"

/-- Text of the `withdraw` operation. -/
def withdraw_op : String := "withdraw"

/-- Text of the `unstake` operation. -/
def unstake_op : String := "unstake"

/-- Text of the `stake --amt <amt>` operation. -/
def stake_amt_op (amt : ℚ) : String := "stake --amt " ++ format_float amt

/-- Headline of the restake-success log (line 655). -/
def restake_completed_title : String := "Restake Completed"

/-- Headline of the claim log (line 669). -/
def claim_and_stake_title : String := "Claim and Stake"

/-- Headline of the claim-success log (line 688). -/
def stake_completed_title : String := "Stake Completed"

/-- The redacted wallet command text used in failure logs
    (`curr_cmd2`; branch A redacts with 7 `#`, branch B with 6). -/
def redacted_wallet_cmd (cfg : Config) (hashes op : String) : String :=
  cfg.use_sudo ++ " rusk-wallet --password " ++ hashes ++ " " ++ op

/-- The log emitted when a wallet action step fails (lines 636, 644, 652,
    676, 684): note the source reuses the headline `Withdraw Failed` for
    every step; the failing step is identified by the command text. -/
def withdraw_failed_log (block_height : ℤ) (redacted_cmd : String) : String :=
  log_action_msg ("Withdraw Failed (Block #" ++ toString block_height ++ ")")
    ("Command: " ++ redacted_cmd)

/-- The message of the exception raised when a wallet action step fails. -/
def cmd_execution_failed : String := "CMD execution failed"

/-- Abstraction of one no-action ring-buffer entry (lines 761-770); the
    rendering of the numbers is irrelevant to the buffer's behaviour. -/
def render_log_entry (now_ts : String) (block_height : ℤ) (action : String)
    (si : StakeInfo) (price : ℚ) : String :=
  "Log Entry @ " ++ now_ts ++ " Block Height: #" ++ toString block_height ++
  " Last Action: " ++ action ++ " Staked: " ++ format_float si.stake_amount ++
  " Rewards: " ++ format_float si.rewards_amount ++
  " Reclaimable: " ++ format_float si.reclaimable_slashed_stake ++
  " price " ++ format_float price

/-- An external command issued by `stake_management_loop` through
    `execute_command_async`. -/
inductive Cmd where
  /-- `ruskquery block-height` (line 560) -/
  | fetch_block_height : Cmd
  /-- `rusk-wallet ... stake-info` (line 576) -/
  | fetch_stake_info : Cmd
  /-- `rusk-wallet ... withdraw` (lines 632, 672) -/
  | withdraw : Cmd
  /-- `rusk-wallet ... unstake` (line 640) -/
  | unstake : Cmd
  /-- `rusk-wallet ... stake --amt <amt>` (lines 648, 680) -/
  | stake (amt : ℚ) : Cmd
deriving Repr, DecidableEq

/-- State of `stake_management_loop`: the shared record plus the loop-local
    `first_run` flag (line 548) and `log_entries` buffer (line 550). -/
structure StakeLoopState where
  shared : SharedState
  first_run : Bool
  log_entries : List String
deriving Repr, DecidableEq

/-- Loop-local state at the top of `while True:`. -/
def initial_stake_loop_state : StakeLoopState :=
  { shared := initial_shared_state, first_run := true, log_entries := [] }

/-- The environment's responses to the external calls one decision cycle can
    make; `now_ts` is the wall-clock text `datetime.now()` renders for the
    log entry. -/
structure StakeInput where
  dusk_fetch : Option ℚ
  block_height_fetch : Option String
  stake_info_fetch : Option String
  withdraw_result : Option String
  unstake_result : Option String
  stake_cmd_result : Option String
  now_ts : String
deriving Repr, DecidableEq

/-- How one cycle of `stake_management_loop` terminates. -/
inductive StakeOutcome where
  /-- block-height fetch failed: `sleep_with_feedback(30)` then `continue` (lines 561-564). -/
  | sleepRetryBlock : StakeOutcome
  /-- `last_no_action_block == block_height`: `sleep_with_feedback(60)` then `continue` (lines 570-573). -/
  | sleepGuard : StakeOutcome
  /-- stake-info fetch failed: `sleep_with_feedback(30)` then `continue` (lines 577-580). -/
  | sleepRetryStake : StakeOutcome
  /-- parse incomplete: `sleep_with_feedback(30)` then `continue` (lines 583-586). -/
  | sleepParseSkip : StakeOutcome
  /-- `sleep_until_next_epoch(block_height, buffer_blocks)` — line 787 for
      the skip / claim / no-action paths, line 659 (with `block_height+2160`
      and the default buffer 60) after a completed restake. -/
  | sleepEpoch (block_height buffer_blocks : ℤ) : StakeOutcome
  /-- an exception no handler catches: the loop (and the program) dies. -/
  | raised (msg : String) : StakeOutcome
deriving Repr, DecidableEq

/-- Result of one decision cycle: the final state, the external commands
    issued (in order), the `log_action` notifications emitted (in order),
    and how the cycle ended. -/
structure StakeCycleResult where
  state : StakeLoopState
  cmds : List Cmd
  logs : List String
  outcome : StakeOutcome
deriving Repr, DecidableEq

/-- One cycle of the `while True:` body of `stake_management_loop`
    (lines 551-787). -/
def stake_management_cycle (cfg : Config) (st : StakeLoopState) (inp : StakeInput) :
    StakeCycleResult :=
  -- price refresh inside try/except (lines 553-557); a failed fetch raises
  -- AttributeError on `None.get`, caught and logged at line 557
  let st :=
    match inp.dusk_fetch with
    | some usd => { st with shared := { st.shared with price := usd } }
    | none => st
  -- fresh block height (lines 560-567)
  let cmds := [Cmd.fetch_block_height]
  if pyTruthy inp.block_height_fetch = false then
    ⟨st, cmds, [], .sleepRetryBlock⟩
  else
    match pyIntOfString (orEmpty inp.block_height_fetch) with
    | none => ⟨st, cmds, [], .raised value_error_int⟩
    | some block_height =>
      let st := { st with shared := { st.shared with block_height := block_height } }
      -- no-action guard (lines 570-573)
      if st.shared.last_no_action_block = some block_height then
        ⟨st, cmds, [], .sleepGuard⟩
      else
        -- stake-info fetch and parse (lines 576-586)
        let cmds := cmds ++ [Cmd.fetch_stake_info]
        if pyTruthy inp.stake_info_fetch = false then
          ⟨st, cmds, [], .sleepRetryStake⟩
        else
          match parse_stake_info (orEmpty inp.stake_info_fetch) with
          | (some e_stake, some r_slashed, some a_rewards) =>
            -- commit all three parsed fields (lines 589-591)
            let st := { st with shared := { st.shared with
              stake_info := ⟨e_stake, r_slashed, a_rewards⟩ } }
            -- derived quantities (lines 594-602)
            let last_claim_block := st.shared.last_claim_block
            let rewards_per_epoch :=
              calculate_rewards_per_epoch a_rewards last_claim_block block_height
            let downtime_loss := calculate_downtime_loss rewards_per_epoch 1
            let incremental_threshold := rewards_per_epoch
            let total_restake := e_stake + a_rewards + r_slashed
            if should_unstake_and_restake cfg r_slashed downtime_loss then
              if total_restake < cfg.min_stake_amount then
                -- skip: logged, no wallet command (lines 606-616)
                let st := { st with shared := { st.shared with
                  last_action_taken := "Unstake/Restake Skipped (Below Min)" } }
                let logs :=
                  [balance_info_stk_log block_height a_rewards e_stake r_slashed,
                   log_action_msg
                     ("Unstake/Restake Skipped (Block #" ++ toString block_height ++ ")")
                     ("Total restake (" ++ format_float total_restake ++ " DUSK) < " ++
                      format_float cfg.min_stake_amount ++ " DUSK.")]
                ⟨st, cmds, logs, .sleepEpoch block_height cfg.buffer_blocks⟩
              else
                -- branch A: withdraw → unstake → stake (lines 618-660)
                let act_msg := "Unstake/Restake @ Block #" ++ toString block_height
                let st := { st with shared := { st.shared with last_action_taken := act_msg } }
                let logs :=
                  [balance_info_stake_log block_height a_rewards e_stake r_slashed,
                   log_action_msg act_msg
                     ("Reclaimable: " ++ format_float r_slashed ++
                      ", Downtime Loss: " ++ format_float downtime_loss)]
                let cmds := cmds ++ [Cmd.withdraw]
                if pyTruthy inp.withdraw_result = false then
                  ⟨st, cmds,
                   logs ++ [withdraw_failed_log block_height
                     (redacted_wallet_cmd cfg hash7 withdraw_op)],
                   .raised cmd_execution_failed⟩
                else
                  let cmds := cmds ++ [Cmd.unstake]
                  if pyTruthy inp.unstake_result = false then
                    ⟨st, cmds,
                     logs ++ [withdraw_failed_log block_height
                       (redacted_wallet_cmd cfg hash7 unstake_op)],
                     .raised cmd_execution_failed⟩
                  else
                    let cmds := cmds ++ [Cmd.stake total_restake]
                    if pyTruthy inp.stake_cmd_result = false then
                      ⟨st, cmds,
                       logs ++ [withdraw_failed_log block_height
                         (redacted_wallet_cmd cfg hash7 (stake_amt_op total_restake))],
                       .raised cmd_execution_failed⟩
                    else
                      let logs := logs ++
                        [log_action_msg restake_completed_title
                          ("New Stake: " ++ format_float total_restake)]
                      let st := { st with shared := { st.shared with
                        last_claim_block := block_height } }
                      -- 2-epoch wait then `continue` (lines 658-660)
                      ⟨st, cmds, logs, .sleepEpoch (block_height + 2160) 60⟩
            else if should_claim_and_stake cfg a_rewards incremental_threshold then
              -- branch B: withdraw → stake (lines 662-689)
              let st := { st with shared := { st.shared with
                last_action_taken := "Claim/Stake @ Block " ++ toString block_height } }
              let logs :=
                [balance_info_stk_log block_height a_rewards e_stake r_slashed,
                 log_action_msg claim_and_stake_title ("Rewards: " ++ format_float a_rewards)]
              let cmds := cmds ++ [Cmd.withdraw]
              if pyTruthy inp.withdraw_result = false then
                ⟨st, cmds,
                 logs ++ [withdraw_failed_log block_height
                   (redacted_wallet_cmd cfg hash6 withdraw_op)],
                 .raised cmd_execution_failed⟩
              else
                let cmds := cmds ++ [Cmd.stake a_rewards]
                if pyTruthy inp.stake_cmd_result = false then
                  ⟨st, cmds,
                   logs ++ [withdraw_failed_log block_height
                     (redacted_wallet_cmd cfg hash6 (stake_amt_op a_rewards))],
                   .raised cmd_execution_failed⟩
                else
                  let new_stake := e_stake + a_rewards
                  let logs := logs ++
                    [log_action_msg stake_completed_title ("New Stake: " ++ format_float new_stake)]
                  let st := { st with shared := { st.shared with
                    last_claim_block := block_height } }
                  ⟨st, cmds, logs, .sleepEpoch block_height cfg.buffer_blocks⟩
            else
              -- branch C: no action (lines 691-784)
              let st := { st with shared := { st.shared with
                last_no_action_block := some block_height
                last_action_taken := "No Action @ Block " ++ toString block_height } }
              -- one-time startup banner & notification (lines 701-747)
              let st :=
                if st.shared.first_run then
                  { st with shared := { st.shared with
                    first_run := false
                    last_action_taken := "Startup @ Block #" ++ toString block_height } }
                else st
              -- ring-buffer log entry for non-first iterations (lines 759-781)
              let st :=
                if st.first_run = false then
                  let entry := render_log_entry inp.now_ts st.shared.block_height
                    st.shared.last_action_taken st.shared.stake_info st.shared.price
                  { st with log_entries := append_log_entry st.log_entries entry }
                else st
              let st := { st with first_run := false }
              ⟨st, cmds, [], .sleepEpoch block_height cfg.buffer_blocks⟩
          | _ => ⟨st, cmds, [], .sleepParseSkip⟩

end DuskManager

namespace DuskManager

/-! ## Claim C6 — epoch sleep duration -/

/-- C6: for every block height `H` and buffer `b`, if `2160 - (H mod 2160) - b`
    is `≤ 0` then `sleep_until_next_epoch` sleeps exactly 300 seconds, however
    negative that value is; otherwise it sleeps exactly
    `(2160 - (H mod 2160) - b) * 10` seconds. -/
theorem C6_sleep_until_next_epoch_min_sleep (block_height buffer_blocks : ℤ) :
    sleep_until_next_epoch_seconds block_height buffer_blocks =
      if 2160 - block_height % 2160 - buffer_blocks ≤ 0 then 300
      else (2160 - block_height % 2160 - buffer_blocks) * 10 := by
  simp only [sleep_until_next_epoch_seconds]
  split <;> split <;> omega

/-! ## Claim C10 — the read-only variant clamps at zero -/

/-- C10: `minutes_until_next_epoch` always returns a non-negative number of
    whole minutes; when `2160 - (H mod 2160) - b ≤ 0` it returns 0 (never a
    negative value), while the sleeping variant instead forces a 300-second
    sleep at the same inputs. -/
theorem C10_minutes_until_next_epoch_clamped (block_height buffer_blocks : ℤ) :
    0 ≤ minutes_until_next_epoch block_height buffer_blocks ∧
    (2160 - block_height % 2160 - buffer_blocks ≤ 0 →
      minutes_until_next_epoch block_height buffer_blocks = 0 ∧
      sleep_until_next_epoch_seconds block_height buffer_blocks = 300) := by
  simp only [minutes_until_next_epoch, sleep_until_next_epoch_seconds]
  constructor
  · exact Int.ediv_nonneg (le_max_right _ _) (by norm_num)
  · intro h
    have h10 : (2160 - block_height % 2160 - buffer_blocks) * 10 ≤ 0 := by omega
    have hmax : max ((2160 - block_height % 2160 - buffer_blocks) * 10) 0 = 0 :=
      max_eq_right h10
    rw [hmax]
    exact ⟨rfl, if_pos h10⟩

/-- Witness for C10 at the concrete input `H = 2159`, `b = 60` (the height is
    already past the buffer point: `2160 - 2159 - 60 = -59 ≤ 0`). -/
theorem C10_minutes_until_next_epoch_clamped_witness :
    0 ≤ minutes_until_next_epoch 2159 60 ∧ minutes_until_next_epoch 2159 60 = 0 ∧
    sleep_until_next_epoch_seconds 2159 60 = 300 :=
  ⟨(C10_minutes_until_next_epoch_clamped 2159 60).1,
   ((C10_minutes_until_next_epoch_clamped 2159 60).2 (by decide)).1,
   ((C10_minutes_until_next_epoch_clamped 2159 60).2 (by decide)).2⟩

/-! ## Claim C8 — branch A eligibility -/

/-- C8: branch A (unstake-and-restake) is eligible exactly when auto-restake
    is enabled, the reclaimable slashed stake exceeds the configured minimum,
    and the reclaimable slashed stake is at least the downtime loss; with
    `reclaimable = 5`, `downtime = 3`, minimum 1 and auto-restake enabled it
    is eligible, and with auto-restake disabled it is ineligible for all
    amounts. -/
theorem C8_should_unstake_and_restake_iff :
    (∀ (cfg : Config) (reclaimable downtime : ℚ),
        should_unstake_and_restake cfg reclaimable downtime = true ↔
          cfg.auto_reclaim_full_restakes = true ∧
          reclaimable > cfg.min_slashed ∧ reclaimable ≥ downtime) ∧
    should_unstake_and_restake
      { default_config with auto_reclaim_full_restakes := true } 5 3 = true ∧
    (∀ cfg : Config, cfg.auto_reclaim_full_restakes = false →
        ∀ reclaimable downtime : ℚ,
          should_unstake_and_restake cfg reclaimable downtime = false) := by
  refine ⟨?_, by decide, ?_⟩
  · intro cfg r d
    simp [should_unstake_and_restake, and_assoc]
  · intro cfg h r d
    simp [should_unstake_and_restake, h]

/-- Witness for C8: the eligibility equivalence instantiated at the claim's
    concrete numbers, in both toggle positions. -/
theorem C8_should_unstake_and_restake_iff_witness :
    should_unstake_and_restake
      { default_config with auto_reclaim_full_restakes := true } 5 3 = true ∧
    should_unstake_and_restake default_config 5 3 = false :=
  ⟨C8_should_unstake_and_restake_iff.2.1,
   C8_should_unstake_and_restake_iff.2.2 default_config (by decide) 5 3⟩

end DuskManager

namespace DuskManager

/-! ## Claim C7 — all-or-nothing stake-info parse -/

/-- A stake-info output with all three required fields well-formed. -/
def wellformed_stake_info_fixture : String :=
  "Eligible stake: 100.5 DUSK\nReclaimable slashed stake: 5 DUSK\nAccumulated rewards is: 0.25 DUSK"

/-- A stake-info output with exactly one required field (the accumulated
    rewards) missing. -/
def malformed_stake_info_fixture : String :=
  "Eligible stake: 100.5 DUSK\nReclaimable slashed stake: 5 DUSK"

/-- C7: `parse_stake_info` is all-or-nothing: it returns either the
    unavailable triple `(none, none, none)` or all three parsed values —
    never a partial result; on the well-formed fixture it returns the three
    values correctly, and on the fixture missing one field it returns the
    unavailable triple. -/
theorem C7_parse_stake_info_all_or_nothing :
    (∀ output : String,
        parse_stake_info output = (none, none, none) ∨
        ∃ e r a : ℚ, parse_stake_info output = (some e, some r, some a)) ∧
    parse_stake_info wellformed_stake_info_fixture =
      (some (201 / 2), some 5, some (1 / 4)) ∧
    parse_stake_info malformed_stake_info_fixture = (none, none, none) := by
  refine ⟨fun output => ?_, by decide, by decide⟩
  unfold parse_stake_info
  cases hr : List.foldlM parse_stake_info_line (none, none, none)
      ((split_lines output).map strip_chars) with
  | error e => left; simp [hr]
  | ok t =>
    obtain ⟨a, b, c⟩ := t
    by_cases ha : a = none ∨ b = none ∨ c = none
    · left; simp only [hr]; rw [if_pos ha]
    · right
      have hneg := ha
      push_neg at ha
      obtain ⟨e, he⟩ := Option.ne_none_iff_exists'.mp ha.1
      obtain ⟨r, hrr⟩ := Option.ne_none_iff_exists'.mp ha.2.1
      obtain ⟨w, hw⟩ := Option.ne_none_iff_exists'.mp ha.2.2
      exact ⟨e, r, w, by simp only [hr]; rw [if_neg hneg]; rw [he, hrr, hw]⟩

end DuskManager

namespace DuskManager

/-! ## Claim C5 — the no-action log buffer -/

/-- C5 counterexample: appending 21 entries to the initially empty buffer
    through the source's update (lines 772-774) leaves 21 stored entries —
    the buffer does not hold at most 20 entries after every append, so its
    capacity is not 20. -/
theorem C5_log_buffer_counterexample :
    ((List.range 21).foldl (fun l i => append_log_entry l (toString i)) []).length = 21 := by
  decide

/-- C5 (amended): the buffer is bounded by 21 entries, not 20: an append at
    20 or fewer entries evicts nothing, and only an append at 21 entries
    (`len > 20`) evicts the oldest entry first. -/
theorem C5_log_buffer_amended (l : List String) (e : String) (h : l.length ≤ 21) :
    (append_log_entry l e).length ≤ 21 ∧
    (l.length ≤ 20 → append_log_entry l e = l ++ [e]) ∧
    (l.length = 21 → append_log_entry l e = l.tail ++ [e]) := by
  unfold append_log_entry
  refine ⟨?_, ?_, ?_⟩
  · split <;> simp <;> omega
  · intro h20
    rw [if_neg (by omega)]
  · intro h21
    rw [if_pos (by omega)]

/-- Witness for C5 (amended) at a concrete 21-entry buffer. -/
theorem C5_log_buffer_amended_witness :
    (append_log_entry (List.replicate 21 zero_text) zero_text).length ≤ 21 ∧
    append_log_entry (List.replicate 21 zero_text) zero_text =
      (List.replicate 21 zero_text).tail ++ [zero_text] :=
  ⟨(C5_log_buffer_amended (List.replicate 21 zero_text) zero_text (by decide)).1,
   (C5_log_buffer_amended (List.replicate 21 zero_text) zero_text (by decide)).2.2 (by decide)⟩

end DuskManager

namespace DuskManager

/-! ## Concrete fixture texts shared by the trace theorems -/

/-- Block-height text `100`. -/
def height_100 : String := "100"
/-- Block-height text `200`. -/
def height_200 : String := "200"
/-- Block-height text `1000`. -/
def height_1000 : String := "1000"
/-- A non-empty command output that matches none of the parse patterns. -/
def junk_text : String := "junk"

/-! ## Claim C4 — a failed peers fetch crashes the polling loop -/

/-- A polling observation whose `ruskquery peers` command fails. -/
def peers_failed_input : FreqInput :=
  { block_height_fetch := some height_100
    balances_fetch := (0, 0)
    stake_info_fetch := none
    dusk_fetch := none
    peers_fetch := none }

/-- A decision-cycle observation whose `ruskquery block-height` command
    returns non-numeric text. -/
def junk_height_input : StakeInput :=
  { dusk_fetch := none
    block_height_fetch := some junk_text
    stake_info_fetch := none
    withdraw_result := none
    unstake_result := none
    stake_cmd_result := none
    now_ts := zero_text }

/-- C4 (code bug): a data-fetch failure is not always recovered by a retry
    sleep.  When the `ruskquery peers` command fails, `frequent_update_loop`
    evaluates `int(None)` at line 482 — before its own `if not peer_count:`
    retry check at line 484 can run — and the uncaught `TypeError` kills the
    loop; likewise non-numeric block-height text kills
    `stake_management_loop` at line 566 with an uncaught `ValueError`. -/
theorem C4_fetch_failure_crashes_loop :
    (frequent_update_cycle default_config initial_freq_state peers_failed_input).2 =
      FreqOutcome.raised type_error_int_none ∧
    (stake_management_cycle default_config initial_stake_loop_state junk_height_input).outcome =
      StakeOutcome.raised value_error_int := by
  decide

/-! ## Claim C3 — stake_info commit discipline -/

/-- A polling-loop state on its 33rd loop with previously stored
    stake-info values `(5, 5, 5)`. -/
def c3_prior_state : FreqState :=
  { initial_freq_state with
    loopcnt := 33
    shared := { initial_shared_state with stake_info := ⟨5, 5, 5⟩ } }

/-- A polling observation whose stake-info command returns non-empty text
    that fails to parse. -/
def c3_junk_stake_input : FreqInput :=
  { block_height_fetch := some height_100
    balances_fetch := (0, 0)
    stake_info_fetch := some junk_text
    dusk_fetch := none
    peers_fetch := some peers_50_text }

/-- C3 counterexample: in `frequent_update_loop` a failed parse of non-empty
    stake-info output does **not** leave the previously stored values
    unchanged: the stored `(5, 5, 5)` is overwritten with the `or 0.0`
    defaults `(0, 0, 0)` (lines 466-469). -/
theorem C3_stake_info_counterexample :
    c3_prior_state.shared.stake_info = ⟨5, 5, 5⟩ ∧
    parse_stake_info junk_text = (none, none, none) ∧
    (frequent_update_cycle default_config c3_prior_state c3_junk_stake_input).1.shared.stake_info =
      ⟨0, 0, 0⟩ := by
  decide

set_option maxHeartbeats 2000000 in
/-- C3 (amended): the three `stake_info` fields are always written together,
    and in `stake_management_loop` a failed parse commits nothing; but in
    `frequent_update_loop` a failed parse of *non-empty* stake-info output
    overwrites all three fields with the `or 0.0` defaults instead of
    leaving them unchanged (only a failed or empty command, or a cycle
    before the 33rd loop, leaves them unchanged there). -/
theorem C3_stake_info_commit_amended :
    (∀ (cfg : Config) (st : StakeLoopState) (inp : StakeInput) (bs s : String) (bh : ℤ),
      inp.block_height_fetch = some bs → pyTruthy (some bs) = true →
      pyIntOfString bs = some bh →
      st.shared.last_no_action_block ≠ some bh →
      inp.stake_info_fetch = some s → pyTruthy (some s) = true →
      parse_stake_info s = (none, none, none) →
      (stake_management_cycle cfg st inp).state.shared.stake_info = st.shared.stake_info ∧
      (stake_management_cycle cfg st inp).outcome = StakeOutcome.sleepParseSkip) ∧
    (∀ (cfg : Config) (st : FreqState) (inp : FreqInput) (bs : String) (bh : ℤ),
      inp.block_height_fetch = some bs → pyTruthy (some bs) = true →
      pyIntOfString bs = some bh →
      st.last_known_block_height = none →
      pyTruthy inp.stake_info_fetch = false →
      (frequent_update_cycle cfg st inp).1.shared.stake_info = st.shared.stake_info) ∧
    (∀ (cfg : Config) (st : FreqState) (inp : FreqInput) (bs s : String) (bh : ℤ),
      inp.block_height_fetch = some bs → pyTruthy (some bs) = true →
      pyIntOfString bs = some bh →
      st.last_known_block_height = none →
      st.loopcnt ≥ 33 →
      inp.stake_info_fetch = some s → pyTruthy (some s) = true →
      parse_stake_info s = (none, none, none) →
      (frequent_update_cycle cfg st inp).1.shared.stake_info = ⟨0, 0, 0⟩) := by
  refine ⟨?_, ?_, ?_⟩
  · intro cfg st inp bs s bh hb hbt hbi hg hsf hst hsp
    constructor
    · simp only [stake_management_cycle, hb, orEmpty, hbi, hbt, hsf, hst, hsp]
      repeat' split
      all_goals simp_all
    · simp only [stake_management_cycle, hb, orEmpty, hbi, hbt, hsf, hst, hsp]
      repeat' split
      all_goals simp_all
  · intro cfg st inp bs bh hb hbt hbi hl hs
    simp only [frequent_update_cycle, hb, orEmpty, hbi, hbt, hl, hs]
    repeat' split
    all_goals simp_all
  · intro cfg st inp bs s bh hb hbt hbi hl h33 hsf hst hsp
    simp only [frequent_update_cycle, hb, orEmpty, hbi, hbt, hl, hsf, hst, hsp, h33]
    repeat' split
    all_goals simp_all [pyOr]

/-- Witness for C3 (amended): the decision loop leaves the stored values
    unchanged on the junk fixture, and the polling loop overwrites them with
    zeros on the same fixture. -/
theorem C3_stake_info_commit_amended_witness :
    (stake_management_cycle default_config initial_stake_loop_state
        { junk_height_input with
          block_height_fetch := some height_100
          stake_info_fetch := some junk_text }).state.shared.stake_info =
      initial_stake_loop_state.shared.stake_info ∧
    (frequent_update_cycle default_config c3_prior_state c3_junk_stake_input).1.shared.stake_info =
      ⟨0, 0, 0⟩ :=
  ⟨(C3_stake_info_commit_amended.1 default_config initial_stake_loop_state
      { junk_height_input with
        block_height_fetch := some height_100
        stake_info_fetch := some junk_text }
      height_100 junk_text 100 (by decide) (by decide) (by decide) (by decide)
      (by decide) (by decide) (by decide)).1,
   C3_stake_info_commit_amended.2.2 default_config c3_prior_state c3_junk_stake_input
      height_100 junk_text 100 (by decide) (by decide) (by decide) (by decide)
      (by decide) (by decide) (by decide) (by decide)⟩

end DuskManager

namespace DuskManager

/-! ## Claim C9 — below-minimum restake is skipped with no wallet commands -/

/-- C9: whenever branch A is eligible but the total restake
    (stake + rewards + reclaimable) is below the configured minimum stake
    amount, the cycle issues no withdraw/unstake/stake command (only the two
    data fetches run), records the skipped outcome in `last_action_taken`,
    and proceeds to the normal epoch sleep. -/
theorem C9_below_minimum_restake_skips (cfg : Config) (st : StakeLoopState)
    (inp : StakeInput) (bs s : String) (bh : ℤ) (e r a : ℚ)
    (hb : inp.block_height_fetch = some bs) (hbt : pyTruthy (some bs) = true)
    (hbi : pyIntOfString bs = some bh)
    (hg : st.shared.last_no_action_block ≠ some bh)
    (hsf : inp.stake_info_fetch = some s) (hst : pyTruthy (some s) = true)
    (hsp : parse_stake_info s = (some e, some r, some a))
    (hel : should_unstake_and_restake cfg r
      (calculate_downtime_loss (calculate_rewards_per_epoch a st.shared.last_claim_block bh) 1)
        = true)
    (hmin : e + a + r < cfg.min_stake_amount) :
    (stake_management_cycle cfg st inp).cmds = [.fetch_block_height, .fetch_stake_info] ∧
    (stake_management_cycle cfg st inp).state.shared.last_action_taken =
      "Unstake/Restake Skipped (Below Min)" ∧
    (stake_management_cycle cfg st inp).outcome =
      StakeOutcome.sleepEpoch bh cfg.buffer_blocks := by
  simp only [stake_management_cycle, hb, orEmpty, hbi, hbt, hsf, hst, hsp]
  repeat' split
  all_goals simp_all

/-- Configuration with auto-restake enabled (minimum stake 1000, minimum
    slash threshold 1, the defaults). -/
def restake_config : Config := { default_config with auto_reclaim_full_restakes := true }

/-- Stake-info text with eligible stake 10, reclaimable slashed stake 5 and
    accumulated rewards 0: branch A is eligible but the total restake 15 is
    below the minimum stake amount 1000. -/
def below_min_stake_text : String :=
  "Eligible stake: 10 DUSK\nReclaimable slashed stake: 5 DUSK\nAccumulated rewards is: 0 DUSK"

/-- A decision-cycle observation at height 1000 with the below-minimum
    stake-info text; the wallet commands would all fail if issued. -/
def below_min_input : StakeInput :=
  { dusk_fetch := none
    block_height_fetch := some height_1000
    stake_info_fetch := some below_min_stake_text
    withdraw_result := none
    unstake_result := none
    stake_cmd_result := none
    now_ts := zero_text }

/-- Witness for C9 at the concrete below-minimum scenario. -/
theorem C9_below_minimum_restake_skips_witness :
    (stake_management_cycle restake_config initial_stake_loop_state below_min_input).cmds =
      [.fetch_block_height, .fetch_stake_info] ∧
    (stake_management_cycle restake_config initial_stake_loop_state below_min_input).state.shared.last_action_taken =
      "Unstake/Restake Skipped (Below Min)" ∧
    (stake_management_cycle restake_config initial_stake_loop_state below_min_input).outcome =
      StakeOutcome.sleepEpoch 1000 60 := by
  have h := C9_below_minimum_restake_skips restake_config initial_stake_loop_state
    below_min_input height_1000 below_min_stake_text 1000 10 5 0
    (by decide) (by decide) (by decide) (by decide) (by decide) (by decide)
    (by decide) (by decide) (by decide)
  exact ⟨h.1, h.2.1, h.2.2.trans (by decide)⟩

end DuskManager

namespace DuskManager

/-! ## Claim C2 — multi-step action failure handling -/

/-- Configuration for the failed-restake scenario: auto-restake on, minimum
    stake lowered to 10. -/
def c2_config : Config :=
  { default_config with auto_reclaim_full_restakes := true, min_stake_amount := 10 }

/-- Stake-info text with eligible stake 100, reclaimable 5, rewards 0:
    branch A is eligible and the total restake 105 clears the minimum 10. -/
def c2_stake_text : String :=
  "Eligible stake: 100 DUSK\nReclaimable slashed stake: 5 DUSK\nAccumulated rewards is: 0 DUSK"

/-- A decision-cycle observation whose `withdraw` command fails. -/
def c2_withdraw_fails_input : StakeInput :=
  { dusk_fetch := none
    block_height_fetch := some height_1000
    stake_info_fetch := some c2_stake_text
    withdraw_result := none
    unstake_result := none
    stake_cmd_result := none
    now_ts := zero_text }

/-- C2 counterexample: when the `withdraw` step of branch A fails, the cycle
    ends in the uncaught `raise Exception("CMD execution failed")` of
    line 637 — there is no handler in `stake_management_loop`, so control
    does **not** return to the outer decision loop: the loop (and through
    `asyncio.gather`, the program) terminates.  The remaining steps are
    indeed not attempted (only `withdraw` was issued). -/
theorem C2_step_failure_counterexample :
    (stake_management_cycle c2_config initial_stake_loop_state c2_withdraw_fails_input).outcome =
      StakeOutcome.raised cmd_execution_failed ∧
    (stake_management_cycle c2_config initial_stake_loop_state c2_withdraw_fails_input).cmds =
      [.fetch_block_height, .fetch_stake_info, .withdraw] := by
  decide

/-- Branch A, `withdraw` fails: no further step is attempted, the failing
    command is logged, the raised exception escapes the loop. -/
theorem c2_branchA_withdraw_fail :
    ∀ (cfg : Config) (st : StakeLoopState) (inp : StakeInput) (bs s : String) (bh : ℤ)
      (e r a : ℚ),
      inp.block_height_fetch = some bs → pyTruthy (some bs) = true →
      pyIntOfString bs = some bh →
      st.shared.last_no_action_block ≠ some bh →
      inp.stake_info_fetch = some s → pyTruthy (some s) = true →
      parse_stake_info s = (some e, some r, some a) →
      should_unstake_and_restake cfg r
        (calculate_downtime_loss (calculate_rewards_per_epoch a st.shared.last_claim_block bh) 1)
        = true →
      ¬(e + a + r < cfg.min_stake_amount) →
      pyTruthy inp.withdraw_result = false →
      (stake_management_cycle cfg st inp).cmds =
        [.fetch_block_height, .fetch_stake_info, .withdraw] ∧
      withdraw_failed_log bh (redacted_wallet_cmd cfg hash7 withdraw_op) ∈
        (stake_management_cycle cfg st inp).logs ∧
      (stake_management_cycle cfg st inp).outcome =
        StakeOutcome.raised cmd_execution_failed := by
  intro cfg st inp bs s bh e r a hb hbt hbi hg hsf hst hsp hel hmin hw
  simp only [stake_management_cycle, hb, orEmpty, hbi, hbt, hsf, hst, hsp]
  repeat' split
  all_goals simp_all

/-- Branch A, `unstake` fails after a successful `withdraw`: the `stake`
    step is not attempted, the failing command is logged, the exception
    escapes the loop. -/
theorem c2_branchA_unstake_fail :
    ∀ (cfg : Config) (st : StakeLoopState) (inp : StakeInput) (bs s : String) (bh : ℤ)
      (e r a : ℚ),
      inp.block_height_fetch = some bs → pyTruthy (some bs) = true →
      pyIntOfString bs = some bh →
      st.shared.last_no_action_block ≠ some bh →
      inp.stake_info_fetch = some s → pyTruthy (some s) = true →
      parse_stake_info s = (some e, some r, some a) →
      should_unstake_and_restake cfg r
        (calculate_downtime_loss (calculate_rewards_per_epoch a st.shared.last_claim_block bh) 1)
        = true →
      ¬(e + a + r < cfg.min_stake_amount) →
      pyTruthy inp.withdraw_result = true →
      pyTruthy inp.unstake_result = false →
      (stake_management_cycle cfg st inp).cmds =
        [.fetch_block_height, .fetch_stake_info, .withdraw, .unstake] ∧
      withdraw_failed_log bh (redacted_wallet_cmd cfg hash7 unstake_op) ∈
        (stake_management_cycle cfg st inp).logs ∧
      (stake_management_cycle cfg st inp).outcome =
        StakeOutcome.raised cmd_execution_failed := by
  intro cfg st inp bs s bh e r a hb hbt hbi hg hsf hst hsp hel hmin hw hu
  simp only [stake_management_cycle, hb, orEmpty, hbi, hbt, hsf, hst, hsp]
  repeat' split
  all_goals simp_all

/-- Branch A, final `stake` step fails: the failing command is logged,
    `last_claim_block` is not updated, the exception escapes the loop. -/
theorem c2_branchA_stake_fail :
    ∀ (cfg : Config) (st : StakeLoopState) (inp : StakeInput) (bs s : String) (bh : ℤ)
      (e r a : ℚ),
      inp.block_height_fetch = some bs → pyTruthy (some bs) = true →
      pyIntOfString bs = some bh →
      st.shared.last_no_action_block ≠ some bh →
      inp.stake_info_fetch = some s → pyTruthy (some s) = true →
      parse_stake_info s = (some e, some r, some a) →
      should_unstake_and_restake cfg r
        (calculate_downtime_loss (calculate_rewards_per_epoch a st.shared.last_claim_block bh) 1)
        = true →
      ¬(e + a + r < cfg.min_stake_amount) →
      pyTruthy inp.withdraw_result = true →
      pyTruthy inp.unstake_result = true →
      pyTruthy inp.stake_cmd_result = false →
      (stake_management_cycle cfg st inp).cmds =
        [.fetch_block_height, .fetch_stake_info, .withdraw, .unstake, .stake (e + a + r)] ∧
      withdraw_failed_log bh (redacted_wallet_cmd cfg hash7 (stake_amt_op (e + a + r))) ∈
        (stake_management_cycle cfg st inp).logs ∧
      (stake_management_cycle cfg st inp).state.shared.last_claim_block =
        st.shared.last_claim_block ∧
      (stake_management_cycle cfg st inp).outcome =
        StakeOutcome.raised cmd_execution_failed := by
  intro cfg st inp bs s bh e r a hb hbt hbi hg hsf hst hsp hel hmin hw hu hs2
  simp only [stake_management_cycle, hb, orEmpty, hbi, hbt, hsf, hst, hsp]
  repeat' split
  all_goals simp_all

/-- Branch B, `withdraw` fails: the `stake` step is not attempted, the
    failing command is logged, the exception escapes the loop. -/
theorem c2_branchB_withdraw_fail :
    ∀ (cfg : Config) (st : StakeLoopState) (inp : StakeInput) (bs s : String) (bh : ℤ)
      (e r a : ℚ),
      inp.block_height_fetch = some bs → pyTruthy (some bs) = true →
      pyIntOfString bs = some bh →
      st.shared.last_no_action_block ≠ some bh →
      inp.stake_info_fetch = some s → pyTruthy (some s) = true →
      parse_stake_info s = (some e, some r, some a) →
      should_unstake_and_restake cfg r
        (calculate_downtime_loss (calculate_rewards_per_epoch a st.shared.last_claim_block bh) 1)
        = false →
      should_claim_and_stake cfg a
        (calculate_rewards_per_epoch a st.shared.last_claim_block bh) = true →
      pyTruthy inp.withdraw_result = false →
      (stake_management_cycle cfg st inp).cmds =
        [.fetch_block_height, .fetch_stake_info, .withdraw] ∧
      withdraw_failed_log bh (redacted_wallet_cmd cfg hash6 withdraw_op) ∈
        (stake_management_cycle cfg st inp).logs ∧
      (stake_management_cycle cfg st inp).outcome =
        StakeOutcome.raised cmd_execution_failed := by
  intro cfg st inp bs s bh e r a hb hbt hbi hg hsf hst hsp hel hcl hw
  simp only [stake_management_cycle, hb, orEmpty, hbi, hbt, hsf, hst, hsp]
  repeat' split
  all_goals simp_all

/-- Branch B, `stake` fails after a successful `withdraw`: the failing
    command is logged, `last_claim_block` is not updated, the exception
    escapes the loop. -/
theorem c2_branchB_stake_fail :
    ∀ (cfg : Config) (st : StakeLoopState) (inp : StakeInput) (bs s : String) (bh : ℤ)
      (e r a : ℚ),
      inp.block_height_fetch = some bs → pyTruthy (some bs) = true →
      pyIntOfString bs = some bh →
      st.shared.last_no_action_block ≠ some bh →
      inp.stake_info_fetch = some s → pyTruthy (some s) = true →
      parse_stake_info s = (some e, some r, some a) →
      should_unstake_and_restake cfg r
        (calculate_downtime_loss (calculate_rewards_per_epoch a st.shared.last_claim_block bh) 1)
        = false →
      should_claim_and_stake cfg a
        (calculate_rewards_per_epoch a st.shared.last_claim_block bh) = true →
      pyTruthy inp.withdraw_result = true →
      pyTruthy inp.stake_cmd_result = false →
      (stake_management_cycle cfg st inp).cmds =
        [.fetch_block_height, .fetch_stake_info, .withdraw, .stake a] ∧
      withdraw_failed_log bh (redacted_wallet_cmd cfg hash6 (stake_amt_op a)) ∈
        (stake_management_cycle cfg st inp).logs ∧
      (stake_management_cycle cfg st inp).state.shared.last_claim_block =
        st.shared.last_claim_block ∧
      (stake_management_cycle cfg st inp).outcome =
        StakeOutcome.raised cmd_execution_failed := by
  intro cfg st inp bs s bh e r a hb hbt hbi hg hsf hst hsp hel hcl hw hs2
  simp only [stake_management_cycle, hb, orEmpty, hbi, hbt, hsf, hst, hsp]
  repeat' split
  all_goals simp_all

end DuskManager

namespace DuskManager

/-- C2 (amended): when any step of a multi-step stake action fails, the
    remaining steps of that action are not attempted and the failing step's
    command is logged — but the `raise Exception` that reports it has no
    handler in `stake_management_loop`, so instead of returning control to
    the outer decision loop for the next cycle, the exception escapes and
    terminates the loop (fatal for the process, not just for the cycle). -/
theorem C2_step_failure_amended :
    (∀ (cfg : Config) (st : StakeLoopState) (inp : StakeInput) (bs s : String) (bh : ℤ)
      (e r a : ℚ),
      inp.block_height_fetch = some bs → pyTruthy (some bs) = true →
      pyIntOfString bs = some bh →
      st.shared.last_no_action_block ≠ some bh →
      inp.stake_info_fetch = some s → pyTruthy (some s) = true →
      parse_stake_info s = (some e, some r, some a) →
      should_unstake_and_restake cfg r
        (calculate_downtime_loss (calculate_rewards_per_epoch a st.shared.last_claim_block bh) 1)
        = true →
      ¬(e + a + r < cfg.min_stake_amount) →
      pyTruthy inp.withdraw_result = false →
      (stake_management_cycle cfg st inp).cmds =
        [.fetch_block_height, .fetch_stake_info, .withdraw] ∧
      withdraw_failed_log bh (redacted_wallet_cmd cfg hash7 withdraw_op) ∈
        (stake_management_cycle cfg st inp).logs ∧
      (stake_management_cycle cfg st inp).outcome =
        StakeOutcome.raised cmd_execution_failed) ∧
    (∀ (cfg : Config) (st : StakeLoopState) (inp : StakeInput) (bs s : String) (bh : ℤ)
      (e r a : ℚ),
      inp.block_height_fetch = some bs → pyTruthy (some bs) = true →
      pyIntOfString bs = some bh →
      st.shared.last_no_action_block ≠ some bh →
      inp.stake_info_fetch = some s → pyTruthy (some s) = true →
      parse_stake_info s = (some e, some r, some a) →
      should_unstake_and_restake cfg r
        (calculate_downtime_loss (calculate_rewards_per_epoch a st.shared.last_claim_block bh) 1)
        = true →
      ¬(e + a + r < cfg.min_stake_amount) →
      pyTruthy inp.withdraw_result = true →
      pyTruthy inp.unstake_result = false →
      (stake_management_cycle cfg st inp).cmds =
        [.fetch_block_height, .fetch_stake_info, .withdraw, .unstake] ∧
      withdraw_failed_log bh (redacted_wallet_cmd cfg hash7 unstake_op) ∈
        (stake_management_cycle cfg st inp).logs ∧
      (stake_management_cycle cfg st inp).outcome =
        StakeOutcome.raised cmd_execution_failed) ∧
    (∀ (cfg : Config) (st : StakeLoopState) (inp : StakeInput) (bs s : String) (bh : ℤ)
      (e r a : ℚ),
      inp.block_height_fetch = some bs → pyTruthy (some bs) = true →
      pyIntOfString bs = some bh →
      st.shared.last_no_action_block ≠ some bh →
      inp.stake_info_fetch = some s → pyTruthy (some s) = true →
      parse_stake_info s = (some e, some r, some a) →
      should_unstake_and_restake cfg r
        (calculate_downtime_loss (calculate_rewards_per_epoch a st.shared.last_claim_block bh) 1)
        = true →
      ¬(e + a + r < cfg.min_stake_amount) →
      pyTruthy inp.withdraw_result = true →
      pyTruthy inp.unstake_result = true →
      pyTruthy inp.stake_cmd_result = false →
      (stake_management_cycle cfg st inp).cmds =
        [.fetch_block_height, .fetch_stake_info, .withdraw, .unstake, .stake (e + a + r)] ∧
      withdraw_failed_log bh (redacted_wallet_cmd cfg hash7 (stake_amt_op (e + a + r))) ∈
        (stake_management_cycle cfg st inp).logs ∧
      (stake_management_cycle cfg st inp).state.shared.last_claim_block =
        st.shared.last_claim_block ∧
      (stake_management_cycle cfg st inp).outcome =
        StakeOutcome.raised cmd_execution_failed) ∧
    (∀ (cfg : Config) (st : StakeLoopState) (inp : StakeInput) (bs s : String) (bh : ℤ)
      (e r a : ℚ),
      inp.block_height_fetch = some bs → pyTruthy (some bs) = true →
      pyIntOfString bs = some bh →
      st.shared.last_no_action_block ≠ some bh →
      inp.stake_info_fetch = some s → pyTruthy (some s) = true →
      parse_stake_info s = (some e, some r, some a) →
      should_unstake_and_restake cfg r
        (calculate_downtime_loss (calculate_rewards_per_epoch a st.shared.last_claim_block bh) 1)
        = false →
      should_claim_and_stake cfg a
        (calculate_rewards_per_epoch a st.shared.last_claim_block bh) = true →
      pyTruthy inp.withdraw_result = false →
      (stake_management_cycle cfg st inp).cmds =
        [.fetch_block_height, .fetch_stake_info, .withdraw] ∧
      withdraw_failed_log bh (redacted_wallet_cmd cfg hash6 withdraw_op) ∈
        (stake_management_cycle cfg st inp).logs ∧
      (stake_management_cycle cfg st inp).outcome =
        StakeOutcome.raised cmd_execution_failed) ∧
    (∀ (cfg : Config) (st : StakeLoopState) (inp : StakeInput) (bs s : String) (bh : ℤ)
      (e r a : ℚ),
      inp.block_height_fetch = some bs → pyTruthy (some bs) = true →
      pyIntOfString bs = some bh →
      st.shared.last_no_action_block ≠ some bh →
      inp.stake_info_fetch = some s → pyTruthy (some s) = true →
      parse_stake_info s = (some e, some r, some a) →
      should_unstake_and_restake cfg r
        (calculate_downtime_loss (calculate_rewards_per_epoch a st.shared.last_claim_block bh) 1)
        = false →
      should_claim_and_stake cfg a
        (calculate_rewards_per_epoch a st.shared.last_claim_block bh) = true →
      pyTruthy inp.withdraw_result = true →
      pyTruthy inp.stake_cmd_result = false →
      (stake_management_cycle cfg st inp).cmds =
        [.fetch_block_height, .fetch_stake_info, .withdraw, .stake a] ∧
      withdraw_failed_log bh (redacted_wallet_cmd cfg hash6 (stake_amt_op a)) ∈
        (stake_management_cycle cfg st inp).logs ∧
      (stake_management_cycle cfg st inp).state.shared.last_claim_block =
        st.shared.last_claim_block ∧
      (stake_management_cycle cfg st inp).outcome =
        StakeOutcome.raised cmd_execution_failed) :=
  ⟨c2_branchA_withdraw_fail, c2_branchA_unstake_fail, c2_branchA_stake_fail,
   c2_branchB_withdraw_fail, c2_branchB_stake_fail⟩

/-- Witness for C2 (amended): the branch-A withdraw-failure case at the
    concrete failed-restake scenario. -/
theorem C2_step_failure_amended_witness :
    (stake_management_cycle c2_config initial_stake_loop_state c2_withdraw_fails_input).cmds =
      [.fetch_block_height, .fetch_stake_info, .withdraw] ∧
    withdraw_failed_log 1000 (redacted_wallet_cmd c2_config hash7 withdraw_op) ∈
      (stake_management_cycle c2_config initial_stake_loop_state c2_withdraw_fails_input).logs ∧
    (stake_management_cycle c2_config initial_stake_loop_state c2_withdraw_fails_input).outcome =
      StakeOutcome.raised cmd_execution_failed :=
  C2_step_failure_amended.1 c2_config initial_stake_loop_state c2_withdraw_fails_input
    height_1000 c2_stake_text 1000 100 5 0
    (by decide) (by decide) (by decide) (by decide) (by decide) (by decide)
    (by decide) (by decide) (by decide) (by decide)

end DuskManager

namespace DuskManager

/-! ## Claim C1 — anomaly counters and alert cadence -/

/-- One polling cycle under a healthy peer count and an unchanged block
    height: the stall counter increments, and on reaching 10 the cycle
    notifies once, resets the counter to 0 and skips the rest of the cycle
    (lines 437-452). -/
theorem freq_stall_step (cfg : Config) (st : FreqState) (txt : String) (h : ℤ)
    (hl : st.last_known_block_height = some h)
    (ht : pyTruthy (some txt) = true)
    (hi : pyIntOfString txt = some h) :
    (frequent_update_cycle cfg st (benign_input txt)).1.last_known_block_height = some h ∧
    (frequent_update_cycle cfg st (benign_input txt)).1.consecutive_no_change =
      (if st.consecutive_no_change + 1 ≥ 10 then 0 else st.consecutive_no_change + 1) ∧
    (frequent_update_cycle cfg st (benign_input txt)).1.stall_alerts =
      (if st.consecutive_no_change + 1 ≥ 10 then st.stall_alerts + 1 else st.stall_alerts) := by
  simp only [frequent_update_cycle, benign_input, orEmpty, hl, ht, hi]
  repeat' split
  all_goals simp_all

/-- Invariant of a stalled run: across `n` further cycles that observe the
    same height, ten times the number of stall alerts plus the counter value
    advances by exactly `n`, while the counter stays below 10. -/
theorem freq_stall_run (cfg : Config) (txt : String) (h : ℤ)
    (ht : pyTruthy (some txt) = true) (hi : pyIntOfString txt = some h) :
    ∀ (n : ℕ) (st : FreqState),
      st.last_known_block_height = some h → st.consecutive_no_change ≤ 9 →
      (run_frequent_cycles cfg (List.replicate n (benign_input txt)) st).last_known_block_height
          = some h ∧
      (run_frequent_cycles cfg (List.replicate n (benign_input txt)) st).consecutive_no_change
          ≤ 9 ∧
      10 * (run_frequent_cycles cfg (List.replicate n (benign_input txt)) st).stall_alerts +
        (run_frequent_cycles cfg (List.replicate n (benign_input txt)) st).consecutive_no_change =
      10 * st.stall_alerts + st.consecutive_no_change + n := by
  intro n
  induction n with
  | zero => intro st h1 h2; simp [run_frequent_cycles, h1, h2]
  | succ m ih =>
    intro st h1 h2
    have hstep := freq_stall_step cfg st txt h h1 ht hi
    have hcons : run_frequent_cycles cfg (List.replicate (m + 1) (benign_input txt)) st =
        run_frequent_cycles cfg (List.replicate m (benign_input txt))
          ((frequent_update_cycle cfg st (benign_input txt)).1) := rfl
    rw [hcons]
    by_cases hth : st.consecutive_no_change + 1 ≥ 10
    · have h2' : (frequent_update_cycle cfg st (benign_input txt)).1.consecutive_no_change = 0 := by
        rw [hstep.2.1, if_pos hth]
      have h3' : (frequent_update_cycle cfg st (benign_input txt)).1.stall_alerts =
          st.stall_alerts + 1 := by rw [hstep.2.2, if_pos hth]
      have hres := ih ((frequent_update_cycle cfg st (benign_input txt)).1) hstep.1 (by omega)
      refine ⟨hres.1, hres.2.1, ?_⟩
      rw [hres.2.2, h2', h3']
      omega
    · have h2' : (frequent_update_cycle cfg st (benign_input txt)).1.consecutive_no_change =
          st.consecutive_no_change + 1 := by rw [hstep.2.1, if_neg hth]
      have h3' : (frequent_update_cycle cfg st (benign_input txt)).1.stall_alerts =
          st.stall_alerts := by rw [hstep.2.2, if_neg hth]
      have hres := ih ((frequent_update_cycle cfg st (benign_input txt)).1) hstep.1 (by omega)
      refine ⟨hres.1, hres.2.1, ?_⟩
      rw [hres.2.2, h2', h3']
      omega

/-- C1 counterexample: one sustained stall episode of 21 identical
    block-height observations produces **two** alerts, not exactly one —
    after the alert at the 10th unchanged comparison resets the counter, the
    still-stalled height re-arms it and a second alert fires 10 cycles
    later. -/
theorem C1_single_episode_counterexample :
    (run_frequent_cycles default_config (List.replicate 21 (benign_input height_100))
      initial_freq_state).stall_alerts = 2 := by
  decide

/-- C1 (amended): each anomaly counter increments once per polling cycle
    while its condition holds, resets to 0 when the condition clears, and on
    reaching its threshold emits one alert and resets — so it fires once per
    *threshold crossing*, not once per episode: a stall episode of `n`
    identical observations yields `(n-1)/10` alerts (one alert each time 10
    consecutive unchanged comparisons accumulate, re-firing every 10 cycles
    while the stall persists); two 11-observation episodes separated by a
    recovery yield one alert each (total two), and episodes shorter than the
    threshold yield none; the low-peer counter follows the same edge-armed
    per-cycle law with threshold 240. -/
theorem C1_anomaly_alert_cadence_amended :
    (∀ n : ℕ, 1 ≤ n →
      (run_frequent_cycles default_config (List.replicate n (benign_input height_100))
        initial_freq_state).stall_alerts = (n - 1) / 10) ∧
    (run_frequent_cycles default_config
      (List.replicate 11 (benign_input height_100) ++ List.replicate 11 (benign_input height_200))
      initial_freq_state).stall_alerts = 2 ∧
    (run_frequent_cycles default_config
      (List.replicate 10 (benign_input height_100) ++ List.replicate 1 (benign_input height_200) ++
       List.replicate 10 (benign_input height_100))
      initial_freq_state).stall_alerts = 0 ∧
    (∀ (cfg : Config) (st : FreqState) (inp : FreqInput) (bs ps : String) (hgt p : ℤ),
      inp.block_height_fetch = some bs → pyTruthy (some bs) = true →
      pyIntOfString bs = some hgt → st.last_known_block_height = none →
      inp.peers_fetch = some ps → pyIntOfString ps = some p → p ≠ 0 →
      ((frequent_update_cycle cfg st inp).1.consecutive_low_peers =
        if p < cfg.min_peers ∨ p ≤ 0 then
          (if st.consecutive_low_peers + 1 ≥ 240 then 0 else st.consecutive_low_peers + 1)
        else 0) ∧
      ((frequent_update_cycle cfg st inp).1.low_peer_alerts =
        if (p < cfg.min_peers ∨ p ≤ 0) ∧ st.consecutive_low_peers + 1 ≥ 240 then
          st.low_peer_alerts + 1
        else st.low_peer_alerts)) := by
  refine ⟨?_, by decide, by decide, ?_⟩
  · intro n hn
    obtain ⟨m, rfl⟩ : ∃ m, n = m + 1 := ⟨n - 1, by omega⟩
    have hcons : run_frequent_cycles default_config
        (List.replicate (m + 1) (benign_input height_100)) initial_freq_state =
        run_frequent_cycles default_config (List.replicate m (benign_input height_100))
          ((frequent_update_cycle default_config initial_freq_state (benign_input height_100)).1)
        := rfl
    rw [hcons]
    have h1 : (frequent_update_cycle default_config initial_freq_state
        (benign_input height_100)).1.last_known_block_height = some 100 := by decide
    have h2 : (frequent_update_cycle default_config initial_freq_state
        (benign_input height_100)).1.consecutive_no_change = 0 := by decide
    have h3 : (frequent_update_cycle default_config initial_freq_state
        (benign_input height_100)).1.stall_alerts = 0 := by decide
    have ht : pyTruthy (some height_100) = true := by decide
    have hi : pyIntOfString height_100 = some 100 := by decide
    have hrun := freq_stall_run default_config height_100 100 ht hi m
      ((frequent_update_cycle default_config initial_freq_state (benign_input height_100)).1)
      h1 (by omega)
    omega
  · intro cfg st inp bs ps hgt p hb hbt hbi hl hp hpi hpz
    constructor
    · simp only [frequent_update_cycle, orEmpty, hb, hbt, hbi, hl, hp, hpi]
      repeat' split
      all_goals simp_all
    · simp only [frequent_update_cycle, orEmpty, hb, hbt, hbi, hl, hp, hpi]
      repeat' split
      all_goals simp_all

/-- A polling-loop state that has been low on peers for 239 cycles and has
    seen height 100. -/
def c1_low_peer_state : FreqState :=
  { initial_freq_state with
    last_known_block_height := none
    consecutive_low_peers := 239 }

/-- Low peer-count text. -/
def peers_5_text : String := "5"

/-- A polling observation with 5 peers (below the default minimum 10). -/
def c1_low_peer_input : FreqInput :=
  { block_height_fetch := some height_100
    balances_fetch := (0, 0)
    stake_info_fetch := none
    dusk_fetch := none
    peers_fetch := some peers_5_text }

/-- Witness for C1 (amended): the stall-alert formula at the 21-cycle stall,
    and the low-peer step at the 240th consecutive low-peer cycle (one alert
    is emitted and the counter resets). -/
theorem C1_anomaly_alert_cadence_amended_witness :
    (run_frequent_cycles default_config (List.replicate 21 (benign_input height_100))
      initial_freq_state).stall_alerts = 2 ∧
    (frequent_update_cycle default_config c1_low_peer_state c1_low_peer_input).1.consecutive_low_peers
      = 0 ∧
    (frequent_update_cycle default_config c1_low_peer_state c1_low_peer_input).1.low_peer_alerts
      = 1 := by
  have hstep := C1_anomaly_alert_cadence_amended.2.2.2 default_config c1_low_peer_state
    c1_low_peer_input height_100 peers_5_text 100 5
    (by decide) (by decide) (by decide) (by decide) (by decide) (by decide) (by decide)
  exact ⟨(C1_anomaly_alert_cadence_amended.1 21 (by decide)).trans (by decide),
    hstep.1.trans (by decide), hstep.2.trans (by decide)⟩

end DuskManager
